import Mathlib

/-!
Shallow embedding of the configuration compiler in `infra/conf/xray.go`
(repository Negative3103/Xray-core) together with proofs about the claims
of the specification.

Conventions:
* Go pointer-typed optional fields become `Option`.
* Fallible Go functions returning `(T, error)` become `Except Err T`.
* Functions that can hit a Go runtime panic (nil-pointer dereference,
  out-of-range string index) return `Option (Except Err T)`; `none` is the
  panic outcome, which is distinct from returning an error value.
* Machine integers: `uint32`/`uint16` values are carried as `Nat`; the one
  place where uint32 wraparound is observable (the port-capacity loop) is
  modelled with an explicit `% 2^32` on `Int`.
* Types that live in files of the repository that are not available here
  (port-list / address / stream-transport builders, the JSON settings
  loader) are modelled from the spec; each such definition says so in its
  doc comment.
-/

namespace Xray

/-- Error values produced by the compiler, one constructor per `newError`
call site in `infra/conf/xray.go`; `wrap` models `newError(msg).Base(err)`. -/
inductive Err where
  | anyIPNoPort
  | specificIPNoPort
  | unsupportedDomain (d : String)
  | insufficientPorts
  | unknownStrategy (s : String)
  | unknownSniffProtocol (p : String)
  | unknownProtocol (p : String)
  | unknownXudpPolicy (p : String)
  | conflictChainProxy
  | sendThroughDomain (d : String)
  | unknownInboundProtocol (p : String)
  | unknownOutboundProtocol (p : String)
  | wrap (msg : String) (base : Err)
deriving DecidableEq, Repr

instance {ε α : Type} [DecidableEq ε] [DecidableEq α] : DecidableEq (Except ε α) := fun a b =>
  match a, b with
  | Except.error e1, Except.error e2 =>
    if h : e1 = e2 then isTrue (by rw [h]) else isFalse (fun hh => by cases hh; exact h rfl)
  | Except.ok v1, Except.ok v2 =>
    if h : v1 = v2 then isTrue (by rw [h]) else isFalse (fun hh => by cases hh; exact h rfl)
  | Except.error _, Except.ok _ => isFalse (fun hh => Except.noConfusion hh)
  | Except.ok _, Except.error _ => isFalse (fun hh => Except.noConfusion hh)

/-- `true` exactly on `some (Except.ok _)`. -/
def isOkSome {α : Type} : Option (Except Err α) → Bool
  | some (Except.ok _) => true
  | _ => false

/-- Go `strings.ToLower` (character-wise lowering; defined structurally so
that proofs can evaluate it, unlike `String.toLower`). -/
def strToLower (s : String) : String :=
  String.mk (s.data.map Char.toLower)

/-- An inclusive port range; `From`/`To` carry uint32 values (the port
specification builder, which is outside the provided sources, only produces
16-bit port numbers, see the well-formedness hypotheses below). -/
structure PortRange where
  From : Nat
  To : Nat
deriving DecidableEq, Repr

/-- Modelled from the spec: a port specification is an ordered list of
inclusive ranges. -/
structure PortList where
  Range : List PortRange
deriving DecidableEq, Repr

/-- Modelled from the spec: a listen/bind address is either an IP address
(abstracted to an opaque value) or a domain-name string.  The repository's
address parser is not among the provided sources. -/
inductive Address where
  | ip (v : Nat)
  | domain (d : String)
deriving DecidableEq, Repr

/-- Modelled from the spec: an opaque per-transport settings block
(TCP/KCP/WebSocket/HTTP2/domain-socket); the compiler never inspects its
contents, only whether it is set. -/
structure TransportBlock where
  v : Nat
deriving DecidableEq, Repr

/-- Modelled from the spec: socket-level options carrying the dialer-proxy
tag inspected by the outbound compiler. -/
structure SocketConfig where
  DialerProxy : String
deriving DecidableEq, Repr

/-- Stream/transport settings record (conf side): one optional block per
transport kind plus the socket options; fields beyond those inspected by
`xray.go` are omitted.  Modelled from the spec. -/
structure StreamConfig where
  TCPSettings : Option TransportBlock := none
  KCPSettings : Option TransportBlock := none
  WSSettings : Option TransportBlock := none
  HTTPSettings : Option TransportBlock := none
  DSSettings : Option TransportBlock := none
  SocketSettings : Option SocketConfig := none
deriving DecidableEq, Repr

/-- Global transport defaults (conf side). -/
structure TransportConfig where
  TCPConfig : Option TransportBlock := none
  KCPConfig : Option TransportBlock := none
  WSConfig : Option TransportBlock := none
  HTTPConfig : Option TransportBlock := none
  DSConfig : Option TransportBlock := none
deriving DecidableEq, Repr

/-- Built (runtime) socket settings. -/
structure InternetSocketConfig where
  DialerProxy : String
deriving DecidableEq, Repr

/-- Built (runtime) stream settings. -/
structure InternetStreamConfig where
  TCPSettings : Option TransportBlock := none
  KCPSettings : Option TransportBlock := none
  WSSettings : Option TransportBlock := none
  HTTPSettings : Option TransportBlock := none
  DSSettings : Option TransportBlock := none
  SocketSettings : Option InternetSocketConfig := none
deriving DecidableEq, Repr

/-- Modelled from the spec: translating conf stream settings to the
runtime form; the translation of each opaque block is the identity and the
socket options carry the dialer-proxy tag through. -/
def StreamConfig.Build (s : StreamConfig) : InternetStreamConfig :=
  { TCPSettings := s.TCPSettings
    KCPSettings := s.KCPSettings
    WSSettings := s.WSSettings
    HTTPSettings := s.HTTPSettings
    DSSettings := s.DSSettings
    SocketSettings := s.SocketSettings.map (fun sc => { DialerProxy := sc.DialerProxy }) }

/-- `if s.X == nil { s.X = t.X }` on one optional transport block. -/
def fillIfUnset (a b : Option TransportBlock) : Option TransportBlock :=
  match a with
  | none => b
  | some x => some x

/-- `applyTransportConfig` from `xray.go` lines 533-549: each per-transport
field of `s` that is unset is filled from `t`; set fields are untouched. -/
def applyTransportConfig (s : StreamConfig) (t : TransportConfig) : StreamConfig :=
  { s with
    TCPSettings := fillIfUnset s.TCPSettings t.TCPConfig
    KCPSettings := fillIfUnset s.KCPSettings t.KCPConfig
    WSSettings := fillIfUnset s.WSSettings t.WSConfig
    HTTPSettings := fillIfUnset s.HTTPSettings t.HTTPConfig
    DSSettings := fillIfUnset s.DSSettings t.DSConfig }

/-- Destination-override protocols recognized by `toProtocolList`. -/
inductive KnownProtocol where
  | http
  | tls
deriving DecidableEq, Repr

/-- `toProtocolList` from `xray.go` lines 48-61. -/
def toProtocolList : List String → Except Err (List KnownProtocol)
  | [] => Except.ok []
  | p :: rest =>
    match strToLower p with
    | "http" =>
      match toProtocolList rest with
      | Except.error e => Except.error e
      | Except.ok t => Except.ok (KnownProtocol.http :: t)
    | "https" | "tls" | "ssl" =>
      match toProtocolList rest with
      | Except.error e => Except.error e
      | Except.ok t => Except.ok (KnownProtocol.tls :: t)
    | _ => Except.error (Err.unknownProtocol p)

/-- `SniffingConfig` from `xray.go` lines 63-69 (`StringList` is a list of
strings). -/
structure SniffingConfig where
  Enabled : Bool := false
  DestOverride : Option (List String) := none
  DomainsExcluded : Option (List String) := none
  MetadataOnly : Bool := false
  RouteOnly : Bool := false
deriving DecidableEq, Repr

/-- Built sniffing settings (`proxyman.SniffingConfig`). -/
structure SniffingSettings where
  Enabled : Bool
  DestinationOverride : List String
  DomainsExcluded : List String
  MetadataOnly : Bool
  RouteOnly : Bool
deriving DecidableEq, Repr

/-- The destination-override loop of `SniffingConfig.Build`
(`xray.go` lines 74-91). -/
def buildDestOverride : List String → Except Err (List String)
  | [] => Except.ok []
  | protocol :: rest =>
    let mapped : Except Err String :=
      match strToLower protocol with
      | "http" => Except.ok "http"
      | "tls" | "https" | "ssl" => Except.ok "tls"
      | "quic" => Except.ok "quic"
      | "fakedns" => Except.ok "fakedns"
      | "fakedns+others" => Except.ok "fakedns+others"
      | _ => Except.error (Err.unknownSniffProtocol protocol)
    match mapped with
    | Except.error e => Except.error e
    | Except.ok h =>
      match buildDestOverride rest with
      | Except.error e => Except.error e
      | Except.ok t => Except.ok (h :: t)

/-- `SniffingConfig.Build` from `xray.go` lines 72-107. -/
def SniffingConfig.Build (c : SniffingConfig) : Except Err SniffingSettings :=
  match (match c.DestOverride with
         | none => Except.ok []
         | some l => buildDestOverride l : Except Err (List String)) with
  | Except.error e => Except.error e
  | Except.ok p =>
    let d : List String :=
      match c.DomainsExcluded with
      | none => []
      | some l => l.map strToLower
    Except.ok
      { Enabled := c.Enabled
        DestinationOverride := p
        DomainsExcluded := d
        MetadataOnly := c.MetadataOnly
        RouteOnly := c.RouteOnly }

/-- `MuxConfig` from `xray.go` lines 109-114 (`int16` fields as `Int`). -/
structure MuxConfig where
  Enabled : Bool := false
  Concurrency : Int := 0
  XudpConcurrency : Int := 0
  XudpProxyUDP443 : String := ""
deriving DecidableEq, Repr

/-- Built multiplexing settings (`proxyman.MultiplexingConfig`). -/
structure MultiplexingConfig where
  Enabled : Bool
  Concurrency : Int
  XudpConcurrency : Int
  XudpProxyUDP443 : String
deriving DecidableEq, Repr

/-- `MuxConfig.Build` from `xray.go` lines 117-131: empty UDP-443 policy
defaults to "reject", the closed set is passed through, anything else
fails. -/
def MuxConfig.Build (m : MuxConfig) : Except Err MultiplexingConfig :=
  match m.XudpProxyUDP443 with
  | "" =>
    Except.ok
      { Enabled := m.Enabled, Concurrency := m.Concurrency
        XudpConcurrency := m.XudpConcurrency, XudpProxyUDP443 := "reject" }
  | "reject" | "allow" | "skip" =>
    Except.ok
      { Enabled := m.Enabled, Concurrency := m.Concurrency
        XudpConcurrency := m.XudpConcurrency, XudpProxyUDP443 := m.XudpProxyUDP443 }
  | s => Except.error (Err.unknownXudpPolicy s)

/-- `InboundDetourAllocationConfig` from `xray.go` lines 133-137
(`*uint32` fields as `Option Nat`). -/
structure InboundDetourAllocationConfig where
  Strategy : String := ""
  Concurrency : Option Nat := none
  RefreshMin : Option Nat := none
deriving DecidableEq, Repr

/-- Allocation strategy type tag (`proxyman.AllocationStrategy_Type`). -/
inductive AllocationType where
  | Always
  | Random
  | External
deriving DecidableEq, Repr

/-- Built allocation strategy (`proxyman.AllocationStrategy`). -/
structure AllocationStrategy where
  Typ : AllocationType
  Concurrency : Option Nat := none
  Refresh : Option Nat := none
deriving DecidableEq, Repr

/-- `InboundDetourAllocationConfig.Build` from `xray.go` lines 140-165:
the strategy name is matched case-insensitively. -/
def InboundDetourAllocationConfig.Build (c : InboundDetourAllocationConfig) :
    Except Err AllocationStrategy :=
  match strToLower c.Strategy with
  | "always" =>
    Except.ok { Typ := AllocationType.Always, Concurrency := c.Concurrency, Refresh := c.RefreshMin }
  | "random" =>
    Except.ok { Typ := AllocationType.Random, Concurrency := c.Concurrency, Refresh := c.RefreshMin }
  | "external" =>
    Except.ok { Typ := AllocationType.External, Concurrency := c.Concurrency, Refresh := c.RefreshMin }
  | _ => Except.error (Err.unknownStrategy c.Strategy)

/-- Modelled from the spec: a raw protocol-settings payload, abstracted to
the one piece of information `xray.go` itself inspects after decoding (the
transparent-proxy redirect flag of a dokodemo-door payload).  The JSON
decoder is outside the provided sources; payloads are modelled as
structurally valid. -/
structure RawJson where
  redirect : Bool := false
deriving DecidableEq, Repr

/-- Decoded inbound settings variants, one per entry of the
`inboundConfigLoader` registry (`xray.go` lines 19-28). -/
inductive InboundVariant where
  | dokodemo (redirect : Bool)
  | httpIn
  | shadowsocksIn
  | socksIn
  | vlessIn
  | vmessIn
  | trojanIn
  | mtprotoIn
deriving DecidableEq, Repr

/-- Modelled from the spec: `inboundConfigLoader.LoadWithID` with the
registry of `xray.go` lines 19-28; an unregistered protocol name fails,
decoding of a registered one succeeds on the abstracted payload. -/
def inboundLoadWithID (settings : RawJson) (protocol : String) : Except Err InboundVariant :=
  match protocol with
  | "dokodemo-door" => Except.ok (InboundVariant.dokodemo settings.redirect)
  | "http" => Except.ok InboundVariant.httpIn
  | "shadowsocks" => Except.ok InboundVariant.shadowsocksIn
  | "socks" => Except.ok InboundVariant.socksIn
  | "vless" => Except.ok InboundVariant.vlessIn
  | "vmess" => Except.ok InboundVariant.vmessIn
  | "trojan" => Except.ok InboundVariant.trojanIn
  | "mtproto" => Except.ok InboundVariant.mtprotoIn
  | _ => Except.error (Err.unknownInboundProtocol protocol)

/-- Decoded outbound settings variants, one per entry of the
`outboundConfigLoader` registry (`xray.go` lines 30-43). -/
inductive OutboundVariant where
  | blackhole
  | loopback
  | freedom
  | httpOut
  | shadowsocksOut
  | socksOut
  | vlessOut
  | vmessOut
  | trojanOut
  | mtprotoOut
  | dnsOut
  | wireguard
deriving DecidableEq, Repr

/-- Modelled from the spec: `outboundConfigLoader.LoadWithID` with the
registry of `xray.go` lines 30-43. -/
def outboundLoadWithID (_settings : RawJson) (protocol : String) : Except Err OutboundVariant :=
  match protocol with
  | "blackhole" => Except.ok OutboundVariant.blackhole
  | "loopback" => Except.ok OutboundVariant.loopback
  | "freedom" => Except.ok OutboundVariant.freedom
  | "http" => Except.ok OutboundVariant.httpOut
  | "shadowsocks" => Except.ok OutboundVariant.shadowsocksOut
  | "socks" => Except.ok OutboundVariant.socksOut
  | "vless" => Except.ok OutboundVariant.vlessOut
  | "vmess" => Except.ok OutboundVariant.vmessOut
  | "trojan" => Except.ok OutboundVariant.trojanOut
  | "mtproto" => Except.ok OutboundVariant.mtprotoOut
  | "dns" => Except.ok OutboundVariant.dnsOut
  | "wireguard" => Except.ok OutboundVariant.wireguard
  | _ => Except.error (Err.unknownOutboundProtocol protocol)

/-- `InboundDetourConfig` from `xray.go` lines 167-177. -/
structure InboundDetourConfig where
  Protocol : String := ""
  PortList : Option PortList := none
  ListenOn : Option Address := none
  Settings : Option RawJson := none
  Tag : String := ""
  Allocation : Option InboundDetourAllocationConfig := none
  StreamSetting : Option StreamConfig := none
  DomainOverride : Option (List String) := none
  SniffingConfig : Option SniffingConfig := none
deriving DecidableEq, Repr

/-- Built receiver settings (`proxyman.ReceiverConfig`). -/
structure ReceiverConfig where
  PortList : Option PortList := none
  Listen : Option Address := none
  AllocationStrategy : Option AllocationStrategy := none
  StreamSettings : Option InternetStreamConfig := none
  SniffingSettings : Option SniffingSettings := none
  DomainOverride : List KnownProtocol := []
  ReceiveOriginalDestination : Bool := false
deriving DecidableEq, Repr

/-- Built inbound handler (`core.InboundHandlerConfig`); the serial
typed-message wrappers are dropped. -/
structure InboundHandlerConfig where
  Tag : String
  ReceiverSettings : ReceiverConfig
  ProxySettings : InboundVariant
deriving DecidableEq, Repr

/-- Does a domain string name a filesystem/abstract domain socket, i.e. is
its first character '/' or '@'?  (`false` on the empty string, which the
code never reaches without panicking first.) -/
def dsPath (d : String) : Bool :=
  match d.data with
  | [] => false
  | c0 :: _ => c0 == '/' || c0 == '@'

/-- The listen-address / port-specification classification of
`InboundDetourConfig.Build`, `xray.go` lines 183-209.  Result: the
receiver's port list (`none` when the port specification is discarded for
a domain-socket listener).  The outer `none` is the Go panic on
`c.ListenOn.Domain()[0]` when the domain is the empty string. -/
def inboundBuildListen (c : InboundDetourConfig) : Option (Except Err (Option PortList)) :=
  match c.ListenOn with
  | none =>
    match c.PortList with
    | none => some (Except.error Err.anyIPNoPort)
    | some pl => some (Except.ok (some pl))
  | some (Address.ip _) =>
    match c.PortList with
    | none => some (Except.error Err.specificIPNoPort)
    | some pl => some (Except.ok (some pl))
  | some (Address.domain d) =>
    match d.data with
    | [] => none
    | c0 :: _ =>
      if d == "localhost" then
        match c.PortList with
        | none => some (Except.error Err.specificIPNoPort)
        | some pl => some (Except.ok (some pl))
      else if c0 == '/' || c0 == '@' then
        some (Except.ok none)
      else
        some (Except.error (Err.unsupportedDomain d))

/-- The `concurrency` local of `InboundDetourConfig.Build`,
`xray.go` lines 212-215: -1 unless a concurrency is set and the strategy
string is exactly "random" (case-sensitive comparison in the source). -/
def allocConcurrency (a : InboundDetourAllocationConfig) : Int :=
  match a.Concurrency, a.Strategy == "random" with
  | some cc, true => (cc : Int)
  | _, _ => -1

/-- The capacity loop of `InboundDetourConfig.Build`, `xray.go` lines
216-220: `portRange += int(pr.To - pr.From + 1)` in uint32 arithmetic. -/
def portRangeCapacity (pl : PortList) : Int :=
  pl.Range.foldl (fun acc pr => acc + (((pr.To : Int) - (pr.From : Int) + 1) % (4294967296 : Int))) 0

/-- Total capacity as the claims state it: N is the plain sum of
(to - from + 1) over the ranges. -/
def portCapacitySpec (pl : PortList) : Int :=
  pl.Range.foldl (fun acc pr => acc + ((pr.To : Int) - (pr.From : Int) + 1)) 0

/-- The allocation-strategy stage of `InboundDetourConfig.Build`,
`xray.go` lines 211-234.  The outer `none` is the Go nil-pointer panic when
`c.Allocation != nil` but `c.PortList == nil` (the loop dereferences
`c.PortList.Range` unconditionally). -/
def inboundAllocStage (c : InboundDetourConfig) : Option (Except Err (Option AllocationStrategy)) :=
  match c.Allocation with
  | none => some (Except.ok none)
  | some a =>
    match c.PortList with
    | none => none
    | some pl =>
      let concurrency := allocConcurrency a
      let portRange := portRangeCapacity pl
      if concurrency ≥ 0 ∧ concurrency ≥ portRange then
        some (Except.error Err.insufficientPorts)
      else
        match a.Build with
        | Except.error e => some (Except.error e)
        | Except.ok strat => some (Except.ok (some strat))

/-- The sniffing-settings step of `InboundDetourConfig.Build`,
`xray.go` lines 242-248. -/
def sniffStage : Option SniffingConfig → Except Err (Option SniffingSettings)
  | none => Except.ok none
  | some sc =>
    match sc.Build with
    | Except.error e => Except.error (Err.wrap "failed to build sniffing config" e)
    | Except.ok s => Except.ok (some s)

/-- The domain-override step of `InboundDetourConfig.Build`,
`xray.go` lines 249-255. -/
def domainOverrideStage : Option (List String) → Except Err (List KnownProtocol)
  | none => Except.ok []
  | some l =>
    match toProtocolList l with
    | Except.error e => Except.error (Err.wrap "failed to parse inbound detour config" e)
    | Except.ok kp => Except.ok kp

/-- Data produced by the remaining steps of `InboundDetourConfig.Build`
(`xray.go` lines 235-271): stream, sniffing, domain-override and
protocol-settings translation. -/
structure InboundRest where
  ss : Option InternetStreamConfig
  sniff : Option SniffingSettings
  dov : List KnownProtocol
  rod : Bool
  proto : InboundVariant
deriving DecidableEq, Repr

/-- The remaining steps of `InboundDetourConfig.Build`
(`xray.go` lines 235-271). -/
def inboundRestStage (c : InboundDetourConfig) : Except Err InboundRest :=
  let ss := c.StreamSetting.map StreamConfig.Build
  match sniffStage c.SniffingConfig with
  | Except.error e => Except.error e
  | Except.ok sniff =>
    match domainOverrideStage c.DomainOverride with
    | Except.error e => Except.error e
    | Except.ok dov =>
      match inboundLoadWithID (c.Settings.getD {}) c.Protocol with
      | Except.error e => Except.error (Err.wrap "failed to load inbound detour config." e)
      | Except.ok rawConfig =>
        Except.ok
          { ss := ss, sniff := sniff, dov := dov
            rod := match rawConfig with | InboundVariant.dokodemo r => r | _ => false
            proto := rawConfig }

/-- `InboundDetourConfig.Build` from `xray.go` lines 180-278; `none` is a
Go panic. -/
def InboundDetourConfig.Build (c : InboundDetourConfig) :
    Option (Except Err InboundHandlerConfig) :=
  match inboundBuildListen c with
  | none => none
  | some (Except.error e) => some (Except.error e)
  | some (Except.ok rcvPort) =>
    match inboundAllocStage c with
    | none => none
    | some (Except.error e) => some (Except.error e)
    | some (Except.ok alloc) =>
      match inboundRestStage c with
      | Except.error e => some (Except.error e)
      | Except.ok r =>
        some (Except.ok
          { Tag := c.Tag
            ReceiverSettings :=
              { PortList := rcvPort
                Listen := c.ListenOn
                AllocationStrategy := alloc
                StreamSettings := r.ss
                SniffingSettings := r.sniff
                DomainOverride := r.dov
                ReceiveOriginalDestination := r.rod }
            ProxySettings := r.proto })

/-- Modelled from the spec: proxy-chain settings (`ProxyConfig`, defined
outside the provided sources) carry the chain tag and the
transport-layer-proxy flag. -/
structure ProxyConfig where
  Tag : String := ""
  TransportLayerProxy : Bool := false
deriving DecidableEq, Repr

/-- Built proxy settings (`internet.ProxyConfig`). -/
structure InternetProxyConfig where
  Tag : String
  TransportLayerProxy : Bool
deriving DecidableEq, Repr

/-- Modelled from the spec: `ProxyConfig.Build` carries tag and flag
through unchanged. -/
def ProxyConfig.Build (p : ProxyConfig) : Except Err InternetProxyConfig :=
  Except.ok { Tag := p.Tag, TransportLayerProxy := p.TransportLayerProxy }

/-- `OutboundDetourConfig` from `xray.go` lines 280-288. -/
structure OutboundDetourConfig where
  Protocol : String := ""
  SendThrough : Option Address := none
  Tag : String := ""
  Settings : Option RawJson := none
  StreamSetting : Option StreamConfig := none
  ProxySettings : Option ProxyConfig := none
  MuxSettings : Option MuxConfig := none
deriving DecidableEq, Repr

/-- Built sender settings (`proxyman.SenderConfig`). -/
structure SenderConfig where
  Via : Option Address := none
  StreamSettings : Option InternetStreamConfig := none
  ProxySettings : Option InternetProxyConfig := none
  MultiplexSettings : Option MultiplexingConfig := none
deriving DecidableEq, Repr

/-- Built outbound handler (`core.OutboundHandlerConfig`). -/
structure OutboundHandlerConfig where
  SenderSettings : SenderConfig
  Tag : String
  ProxySettings : OutboundVariant
deriving DecidableEq, Repr

/-- `OutboundDetourConfig.checkChainProxyConfig` from `xray.go` lines
290-298: `some` is the non-nil error. -/
def OutboundDetourConfig.checkChainProxyConfig (c : OutboundDetourConfig) : Option Err :=
  match c.StreamSetting, c.ProxySettings with
  | some ss, some ps =>
    match ss.SocketSettings with
    | some sock =>
      if ps.Tag.length > 0 ∧ sock.DialerProxy.length > 0 then
        some Err.conflictChainProxy
      else none
    | none => none
  | _, _ => none

/-- The send-through check of `OutboundDetourConfig.Build`,
`xray.go` lines 307-313. -/
def sendThroughStage : Option Address → Except Err (Option Address)
  | none => Except.ok none
  | some (Address.domain d) => Except.error (Err.sendThroughDomain d)
  | some (Address.ip v) => Except.ok (some (Address.ip v))

/-- The socket-settings rewrite of `OutboundDetourConfig.Build`,
`xray.go` lines 329-337: set the dialer-proxy tag, creating the
socket/stream settings records if absent. -/
def rewriteDialer (ss0 : Option InternetStreamConfig) (tag : String) : InternetStreamConfig :=
  match ss0 with
  | some s =>
    { s with
      SocketSettings :=
        match s.SocketSettings with
        | some sock => some { sock with DialerProxy := tag }
        | none => some { DialerProxy := tag } }
  | none => { SocketSettings := some { DialerProxy := tag } }

/-- The proxy-chain step of `OutboundDetourConfig.Build`,
`xray.go` lines 323-341: build the proxy settings; for a transport-layer
proxy rewrite the stream settings' dialer-proxy tag and drop the explicit
proxy-settings block. -/
def chainStage (ss0 : Option InternetStreamConfig) :
    Option ProxyConfig → Except Err (Option InternetStreamConfig × Option InternetProxyConfig)
  | none => Except.ok (ss0, none)
  | some pc =>
    match pc.Build with
    | Except.error e => Except.error (Err.wrap "invalid outbound detour proxy settings." e)
    | Except.ok ps =>
      if ps.TransportLayerProxy then
        Except.ok (some (rewriteDialer ss0 ps.Tag), none)
      else
        Except.ok (ss0, some ps)

/-- The multiplexing step of `OutboundDetourConfig.Build`,
`xray.go` lines 343-349. -/
def muxStage : Option MuxConfig → Except Err (Option MultiplexingConfig)
  | none => Except.ok none
  | some m =>
    match m.Build with
    | Except.error e => Except.error (Err.wrap "failed to build Mux config." e)
    | Except.ok mc => Except.ok (some mc)

/-- `OutboundDetourConfig.Build` from `xray.go` lines 301-369. -/
def OutboundDetourConfig.Build (c : OutboundDetourConfig) : Except Err OutboundHandlerConfig :=
  match c.checkChainProxyConfig with
  | some e => Except.error e
  | none =>
    match sendThroughStage c.SendThrough with
    | Except.error e => Except.error e
    | Except.ok via =>
      let ss0 := c.StreamSetting.map StreamConfig.Build
      match chainStage ss0 c.ProxySettings with
      | Except.error e => Except.error e
      | Except.ok (ssF, psF) =>
        match muxStage c.MuxSettings with
        | Except.error e => Except.error e
        | Except.ok mux =>
          match outboundLoadWithID (c.Settings.getD {}) c.Protocol with
          | Except.error e => Except.error (Err.wrap "failed to parse to outbound detour config." e)
          | Except.ok rawConfig =>
            Except.ok
              { SenderSettings :=
                  { Via := via, StreamSettings := ssF
                    ProxySettings := psF, MultiplexSettings := mux }
                Tag := c.Tag
                ProxySettings := rawConfig }

/-- Modelled from the spec: a singleton module sub-document (log, routing,
DNS, policy, API, metrics, stats, reverse, fake-DNS, observatory, TUN) is
opaque to the orchestration logic in `xray.go`. -/
structure OpaqueConfig where
  v : Nat := 0
deriving DecidableEq, Repr

/-- `Config` from `xray.go` lines 378-414.  The deprecated detour lists
keep the Go nil/non-nil distinction as `Option`. -/
structure Config where
  Port : Nat := 0
  InboundConfig : Option InboundDetourConfig := none
  OutboundConfig : Option OutboundDetourConfig := none
  InboundDetours : Option (List InboundDetourConfig) := none
  OutboundDetours : Option (List OutboundDetourConfig) := none
  LogConfig : Option OpaqueConfig := none
  RouterConfig : Option OpaqueConfig := none
  DNSConfig : Option OpaqueConfig := none
  InboundConfigs : List InboundDetourConfig := []
  OutboundConfigs : List OutboundDetourConfig := []
  Transport : Option TransportConfig := none
  Policy : Option OpaqueConfig := none
  API : Option OpaqueConfig := none
  Metrics : Option OpaqueConfig := none
  Stats : Option OpaqueConfig := none
  Reverse : Option OpaqueConfig := none
  FakeDNS : Option OpaqueConfig := none
  Observatory : Option OpaqueConfig := none
  Tun : Option OpaqueConfig := none
deriving DecidableEq, Repr

/-- First index in `l` whose tag (under `tagOf`) equals `tag`, as an
`Option Nat`; the loop bodies of `findInboundTag`/`findOutboundTag`. -/
def findTagAuxN {α : Type} (tagOf : α → String) : List α → String → Option Nat
  | [], _ => none
  | x :: rest, tag =>
    if tagOf x == tag then some 0
    else (findTagAuxN tagOf rest tag).map (· + 1)

/-- The -1-or-index convention of `findInboundTag`/`findOutboundTag`. -/
def findTagIdx {α : Type} (tagOf : α → String) (l : List α) (tag : String) : Int :=
  match findTagAuxN tagOf l tag with
  | none => -1
  | some j => (j : Int)

/-- `Config.findInboundTag` from `xray.go` lines 416-425: first matching
index, or -1. -/
def Config.findInboundTag (c : Config) (tag : String) : Int :=
  findTagIdx (fun ib => ib.Tag) c.InboundConfigs tag

/-- `Config.findOutboundTag` from `xray.go` lines 427-436. -/
def Config.findOutboundTag (c : Config) (tag : String) : Int :=
  findTagIdx (fun ob => ob.Tag) c.OutboundConfigs tag

/-- `if new != nil { field = new }` on an optional field. -/
def ovr {α : Type} (base new : Option α) : Option α :=
  match new with
  | some v => some v
  | none => base

/-- The result of matching `c :: cs` against itself in `chContains`. -/
def chStarts : List Char → List Char → Bool
  | [], _ => true
  | _ :: _, [] => false
  | a :: restA, b :: restB => a == b && chStarts restA restB

/-- Substring containment on character lists (Go `strings.Contains`). -/
def chContains : List Char → List Char → Bool
  | [], sub => chStarts sub []
  | a :: t, sub => chStarts sub (a :: t) || chContains t sub

/-- `strings.Contains(strings.ToLower(fn), "tail")` from `xray.go`
line 519. -/
def containsTailMarker (fn : String) : Bool :=
  chContains (fn.data.map Char.toLower) "tail".data

/-- The inbound-list merge of `Config.Override`, `xray.go` lines 498-510:
an empty override list keeps the base; a single-entry override list
replaces the first base entry with the same tag, or is appended when no
tag matches; any other override list (or an empty base) replaces the base
wholesale. -/
def mergeInbounds (base over : List InboundDetourConfig) : List InboundDetourConfig :=
  match over with
  | [] => base
  | e :: rest =>
    if 0 < base.length ∧ (e :: rest).length = 1 then
      let idx := findTagIdx (fun ib => ib.Tag) base e.Tag
      if idx > -1 then base.set idx.toNat e
      else base ++ [e]
    else e :: rest

/-- The outbound-list merge of `Config.Override`, `xray.go` lines 513-530:
as for inbounds, except that an unmatched single entry is appended when
the caller-identity string contains the "tail" marker (case-insensitively)
and prepended otherwise. -/
def mergeOutbounds (base over : List OutboundDetourConfig) (fn : String) :
    List OutboundDetourConfig :=
  match over with
  | [] => base
  | e :: rest =>
    if 0 < base.length ∧ (e :: rest).length = 1 then
      let idx := findTagIdx (fun ob => ob.Tag) base e.Tag
      if idx > -1 then base.set idx.toNat e
      else
        if containsTailMarker fn then base ++ [e]
        else (e :: rest) ++ base
    else e :: rest

/-- `Config.Override` from `xray.go` lines 439-531 as a pure function on
(base, override, caller-identity). -/
def Config.Override (c o : Config) (fn : String) : Config :=
  let c1 : Config :=
    { c with
      LogConfig := ovr c.LogConfig o.LogConfig
      RouterConfig := ovr c.RouterConfig o.RouterConfig
      DNSConfig := ovr c.DNSConfig o.DNSConfig
      Transport := ovr c.Transport o.Transport
      Policy := ovr c.Policy o.Policy
      API := ovr c.API o.API
      Metrics := ovr c.Metrics o.Metrics
      Stats := ovr c.Stats o.Stats
      Reverse := ovr c.Reverse o.Reverse
      FakeDNS := ovr c.FakeDNS o.FakeDNS
      Observatory := ovr c.Observatory o.Observatory
      Tun := ovr c.Tun o.Tun
      InboundConfig := ovr c.InboundConfig o.InboundConfig
      OutboundConfig := ovr c.OutboundConfig o.OutboundConfig
      InboundDetours := ovr c.InboundDetours o.InboundDetours
      OutboundDetours := ovr c.OutboundDetours o.OutboundDetours }
  { c1 with
    InboundConfigs := mergeInbounds c1.InboundConfigs o.InboundConfigs
    OutboundConfigs := mergeOutbounds c1.OutboundConfigs o.OutboundConfigs fn }

/-- Runtime module kinds appearing in the assembled App list. -/
inductive AppModule where
  | dispatcher
  | inboundManager
  | outboundManager
  | api
  | metrics
  | stats
  | log
  | router
  | dns
  | policy
  | reverse
  | fakeDns
  | observatory
  | tun
deriving DecidableEq, Repr

/-- Append module `m` when the sub-document is configured. -/
def appendIf {α : Type} (o : Option α) (app : List AppModule) (m : AppModule) : List AppModule :=
  match o with
  | some _ => app ++ [m]
  | none => app

/-- Prepend module `m` in front of the whole current list when the
sub-document is configured. -/
def prependIf {α : Type} (o : Option α) (app : List AppModule) (m : AppModule) : List AppModule :=
  match o with
  | some _ => [m] ++ app
  | none => app

/-- The App-list assembly of `Config.Build`, `xray.go` lines 557-651.
Each module sub-builder is outside the provided sources and is modelled
from the spec as producing its module configuration (abstracted to the
module kind). -/
def Config.appList (c : Config) : List AppModule :=
  let app := [AppModule.dispatcher, AppModule.inboundManager, AppModule.outboundManager]
  let app := appendIf c.API app AppModule.api
  let app := appendIf c.Metrics app AppModule.metrics
  let app := appendIf c.Stats app AppModule.stats
  let app := [AppModule.log] ++ app
  let app := appendIf c.RouterConfig app AppModule.router
  let app := appendIf c.DNSConfig app AppModule.dns
  let app := appendIf c.Policy app AppModule.policy
  let app := appendIf c.Reverse app AppModule.reverse
  let app := prependIf c.FakeDNS app AppModule.fakeDns
  let app := appendIf c.Observatory app AppModule.observatory
  appendIf c.Tun app AppModule.tun

/-- Legacy inbound reconciliation of `Config.Build`, `xray.go` lines
653-673: deprecated singular field, then deprecated detour list, then the
modern list; then the deprecated top-level port backfills the first
entry's missing port specification. -/
def Config.reconciledInbounds (c : Config) : List InboundDetourConfig :=
  let inbounds :=
    (match c.InboundConfig with | some ic => [ic] | none => []) ++
      (c.InboundDetours.getD []) ++ c.InboundConfigs
  match inbounds with
  | [] => []
  | first :: rest =>
    if first.PortList = none ∧ 0 < c.Port then
      { first with PortList := some { Range := [{ From := c.Port, To := c.Port }] } } :: rest
    else
      first :: rest

/-- Legacy outbound reconciliation of `Config.Build`, `xray.go` lines
689-701. -/
def Config.reconciledOutbounds (c : Config) : List OutboundDetourConfig :=
  (match c.OutboundConfig with | some oc => [oc] | none => []) ++
    (c.OutboundDetours.getD []) ++ c.OutboundConfigs

/-- The per-inbound loop of `Config.Build`, `xray.go` lines 675-687:
transport-default overlay then inbound compilation. -/
def buildInboundList (tr : Option TransportConfig) :
    List InboundDetourConfig → Option (Except Err (List InboundHandlerConfig))
  | [] => some (Except.ok [])
  | ic :: rest =>
    let ic' :=
      match tr with
      | none => ic
      | some t => { ic with StreamSetting := some (applyTransportConfig (ic.StreamSetting.getD {}) t) }
    match ic'.Build with
    | none => none
    | some (Except.error e) => some (Except.error e)
    | some (Except.ok h) =>
      match buildInboundList tr rest with
      | none => none
      | some (Except.error e) => some (Except.error e)
      | some (Except.ok t2) => some (Except.ok (h :: t2))

/-- The per-outbound loop of `Config.Build`, `xray.go` lines 703-715. -/
def buildOutboundList (tr : Option TransportConfig) :
    List OutboundDetourConfig → Except Err (List OutboundHandlerConfig)
  | [] => Except.ok []
  | oc :: rest =>
    let oc' :=
      match tr with
      | none => oc
      | some t => { oc with StreamSetting := some (applyTransportConfig (oc.StreamSetting.getD {}) t) }
    match oc'.Build with
    | Except.error e => Except.error e
    | Except.ok h =>
      match buildOutboundList tr rest with
      | Except.error e => Except.error e
      | Except.ok t2 => Except.ok (h :: t2)

/-- Modelled from the spec: `PostProcessConfigureFile` is invoked first by
`Config.Build` but is outside the provided sources and not described by
the spec; it is modelled as a validation step that leaves the document
unchanged and succeeds. -/
def PostProcessConfigureFile (c : Config) : Except Err Config :=
  Except.ok c

/-- The assembled core configuration (`core.Config`). -/
structure CoreConfig where
  App : List AppModule
  Inbound : List InboundHandlerConfig
  Outbound : List OutboundHandlerConfig
deriving DecidableEq, Repr

/-- `Config.Build` from `xray.go` lines 552-718; `none` is a Go panic in
one of the inbound compilations. -/
def Config.Build (c : Config) : Option (Except Err CoreConfig) :=
  match PostProcessConfigureFile c with
  | Except.error e => some (Except.error e)
  | Except.ok c' =>
    match buildInboundList c'.Transport c'.reconciledInbounds with
    | none => none
    | some (Except.error e) => some (Except.error e)
    | some (Except.ok ibs) =>
      match buildOutboundList c'.Transport c'.reconciledOutbounds with
      | Except.error e => some (Except.error e)
      | Except.ok obs =>
        some (Except.ok { App := c'.appList, Inbound := ibs, Outbound := obs })

/-- The allowed listen-address / port combinations exactly as claim C2
states them (spec wording, for comparison with `inboundBuildListen`). -/
def claimListenCombo (c : InboundDetourConfig) : Bool :=
  match c.ListenOn with
  | none => c.PortList.isSome
  | some (Address.ip _) => c.PortList.isSome
  | some (Address.domain d) => (d == "localhost" && c.PortList.isSome) || dsPath d

/-! ### Helper lemmas -/

lemma string_length_pos (s : String) (h : s ≠ "") : 0 < s.length := by
  cases s with
  | mk l =>
    cases l with
    | nil => exact absurd (by decide) h
    | cons a t => simp [String.length]

lemma data_eq_nil_iff (d : String) : d.data = [] ↔ d = "" := by
  cases d with
  | mk l =>
    constructor
    · intro hl
      have hl' : l = [] := hl
      rw [hl']
    · intro h
      rw [h]

lemma fillIfUnset_idem (a b : Option TransportBlock) :
    fillIfUnset (fillIfUnset a b) b = fillIfUnset a b := by
  cases a <;> cases b <;> rfl

lemma fillIfUnset_some (a b : Option TransportBlock) (h : a.isSome) :
    fillIfUnset a b = a := by
  cases a with
  | none => simp at h
  | some x => rfl

lemma findTagAuxN_none_iff {α : Type} (tagOf : α → String) (l : List α) (tag : String) :
    findTagAuxN tagOf l tag = none ↔ ∀ x ∈ l, tagOf x ≠ tag := by
  induction l with
  | nil => simp [findTagAuxN]
  | cons x rest ih =>
    by_cases hx : tagOf x = tag
    · simp [findTagAuxN, hx]
    · simp [findTagAuxN, hx, ih]

lemma findTagAuxN_some {α : Type} (tagOf : α → String) :
    ∀ (l : List α) (tag : String) (j : Nat), findTagAuxN tagOf l tag = some j →
      j < l.length ∧ (∃ b, l.get? j = some b ∧ tagOf b = tag) ∧
        ∀ i, i < j → ∀ b, l.get? i = some b → tagOf b ≠ tag := by
  intro l
  induction l with
  | nil => intro tag j h; simp [findTagAuxN] at h
  | cons x rest ih =>
    intro tag j h
    by_cases hx : tagOf x = tag
    · simp [findTagAuxN, hx] at h
      refine ⟨by simp [← h], ⟨x, by simp [← h], hx⟩, ?_⟩
      intro i hi
      omega
    · simp [findTagAuxN, hx] at h
      obtain ⟨j', hj', hjj⟩ := h
      obtain ⟨hlen, ⟨b, hb, hbt⟩, hfirst⟩ := ih tag j' hj'
      subst hjj
      refine ⟨by simpa using Nat.succ_lt_succ hlen, ⟨b, by simpa using hb, hbt⟩, ?_⟩
      intro i hi b' hb'
      cases i with
      | zero =>
        simp at hb'
        rw [← hb']
        exact hx
      | succ i' => exact hfirst i' (by omega) b' (by simpa using hb')

lemma findTagAuxN_isSome_of_mem {α : Type} (tagOf : α → String) (l : List α) (tag : String)
    (h : ∃ b ∈ l, tagOf b = tag) : ∃ j, findTagAuxN tagOf l tag = some j := by
  cases o : findTagAuxN tagOf l tag with
  | some j => exact ⟨j, rfl⟩
  | none =>
    obtain ⟨b, hb, hbt⟩ := h
    exact absurd hbt ((findTagAuxN_none_iff tagOf l tag).mp o b hb)

lemma get?_set_self {α : Type} : ∀ (l : List α) (j : Nat) (e : α), j < l.length →
    (l.set j e).get? j = some e
  | [], j, _, h => by simp at h
  | _ :: _, 0, _, _ => rfl
  | _ :: t, j + 1, e, h => get?_set_self t j e (by simpa using h)

lemma get?_set_ne {α : Type} : ∀ (l : List α) (i j : Nat) (e : α), i ≠ j →
    (l.set j e).get? i = l.get? i
  | [], _, _, _, _ => by simp
  | _ :: _, 0, 0, _, h => absurd rfl h
  | _ :: _, 0, _ + 1, _, _ => rfl
  | _ :: _, _ + 1, 0, _, _ => rfl
  | _ :: t, i + 1, j + 1, e, h => get?_set_ne t i j e (fun hh => h (by rw [hh]))

lemma listen_ds (c : InboundDetourConfig) (d : String)
    (hL : c.ListenOn = some (Address.domain d)) (hds : dsPath d = true) :
    inboundBuildListen c = some (Except.ok none) := by
  cases hd : d.data with
  | nil => simp [dsPath, hd] at hds
  | cons c0 rest =>
    have hloc : ¬(d = "localhost") := by
      intro hh
      subst hh
      rw [show dsPath "localhost" = false from by decide] at hds
      simp at hds
    simp only [dsPath, hd] at hds
    simp [inboundBuildListen, hL, hd, hloc, hds]

lemma sniffStage_error_shape (x : Option SniffingConfig) (e : Err)
    (h : sniffStage x = Except.error e) : ∃ m b, e = Err.wrap m b := by
  cases x with
  | none => simp [sniffStage] at h
  | some sc =>
    simp only [sniffStage] at h
    cases hb : sc.Build with
    | error e0 =>
      rw [hb] at h
      simp at h
      exact ⟨_, _, h.symm⟩
    | ok s =>
      rw [hb] at h
      simp at h

lemma domainOverrideStage_error_shape (x : Option (List String)) (e : Err)
    (h : domainOverrideStage x = Except.error e) : ∃ m b, e = Err.wrap m b := by
  cases x with
  | none => simp [domainOverrideStage] at h
  | some l =>
    simp only [domainOverrideStage] at h
    cases hb : toProtocolList l with
    | error e0 =>
      rw [hb] at h
      simp at h
      exact ⟨_, _, h.symm⟩
    | ok kp =>
      rw [hb] at h
      simp at h

lemma inboundRestStage_error_shape (c : InboundDetourConfig) (e : Err)
    (h : inboundRestStage c = Except.error e) : ∃ m b, e = Err.wrap m b := by
  unfold inboundRestStage at h
  cases h1 : sniffStage c.SniffingConfig with
  | error e1 =>
    rw [h1] at h
    simp at h
    rw [← h]
    exact sniffStage_error_shape _ _ h1
  | ok s1 =>
    rw [h1] at h
    cases h2 : domainOverrideStage c.DomainOverride with
    | error e2 =>
      rw [h2] at h
      simp at h
      rw [← h]
      exact domainOverrideStage_error_shape _ _ h2
    | ok dov =>
      rw [h2] at h
      cases h3 : inboundLoadWithID (c.Settings.getD {}) c.Protocol with
      | error e3 =>
        rw [h3] at h
        simp at h
        exact ⟨_, _, h.symm⟩
      | ok v =>
        rw [h3] at h
        simp at h

lemma foldl_capacity_eq : ∀ (l : List PortRange) (acc : Int),
    (∀ pr ∈ l, pr.From ≤ pr.To ∧ pr.To < 65536) →
    l.foldl (fun a pr => a + (((pr.To : Int) - (pr.From : Int) + 1) % (4294967296 : Int))) acc
      = l.foldl (fun a pr => a + ((pr.To : Int) - (pr.From : Int) + 1)) acc := by
  intro l
  induction l with
  | nil => intro acc _; rfl
  | cons pr rest ih =>
    intro acc h
    obtain ⟨hpr1, hpr2⟩ := h pr (by simp)
    have hmod : ((pr.To : Int) - (pr.From : Int) + 1) % (4294967296 : Int)
        = (pr.To : Int) - (pr.From : Int) + 1 :=
      Int.emod_eq_of_lt (by omega) (by omega)
    simp only [List.foldl_cons, hmod]
    exact ih _ (fun pr' h' => h pr' (by simp [h']))

lemma portRangeCapacity_eq_spec (pl : PortList)
    (hwf : ∀ pr ∈ pl.Range, pr.From ≤ pr.To ∧ pr.To < 65536) :
    portRangeCapacity pl = portCapacitySpec pl :=
  foldl_capacity_eq pl.Range 0 hwf

lemma appendIf_eq {α : Type} (o : Option α) (app : List AppModule) (m : AppModule) :
    appendIf o app m = app ++ (if o.isSome then [m] else []) := by
  cases o <;> simp [appendIf]

lemma prependIf_eq {α : Type} (o : Option α) (app : List AppModule) (m : AppModule) :
    prependIf o app m = (if o.isSome then [m] else []) ++ app := by
  cases o <;> simp [prependIf]

lemma rewriteDialer_socket (ss0 : Option InternetStreamConfig) (tag : String) :
    ((rewriteDialer ss0 tag).SocketSettings).map (fun k => k.DialerProxy) = some tag := by
  cases ss0 with
  | none => rfl
  | some s => cases hs : s.SocketSettings <;> simp [rewriteDialer, hs]

lemma natCast_gt_neg_one (j : Nat) : (j : Int) > -1 := by omega

lemma override_inbounds_eq (c o : Config) (fn : String) :
    (Config.Override c o fn).InboundConfigs = mergeInbounds c.InboundConfigs o.InboundConfigs := by
  rfl

lemma override_outbounds_eq (c o : Config) (fn : String) :
    (Config.Override c o fn).OutboundConfigs
      = mergeOutbounds c.OutboundConfigs o.OutboundConfigs fn := by
  rfl

lemma mergeInbounds_replace (base : List InboundDetourConfig) (e : InboundDetourConfig) (j : Nat)
    (hj : findTagAuxN (fun ib => ib.Tag) base e.Tag = some j) (hpos : 0 < base.length) :
    mergeInbounds base [e] = base.set j e := by
  simp only [mergeInbounds]
  simp [findTagIdx, hj, natCast_gt_neg_one j, hpos]

lemma mergeInbounds_append (base : List InboundDetourConfig) (e : InboundDetourConfig)
    (hj : findTagAuxN (fun ib => ib.Tag) base e.Tag = none) (hpos : 0 < base.length) :
    mergeInbounds base [e] = base ++ [e] := by
  simp only [mergeInbounds]
  simp [findTagIdx, hj, hpos]

lemma mergeOutbounds_replace (base : List OutboundDetourConfig) (e : OutboundDetourConfig)
    (fn : String) (j : Nat)
    (hj : findTagAuxN (fun ob => ob.Tag) base e.Tag = some j) (hpos : 0 < base.length) :
    mergeOutbounds base [e] fn = base.set j e := by
  simp only [mergeOutbounds]
  simp [findTagIdx, hj, natCast_gt_neg_one j, hpos]

lemma mergeOutbounds_nomatch (base : List OutboundDetourConfig) (e : OutboundDetourConfig)
    (fn : String)
    (hj : findTagAuxN (fun ob => ob.Tag) base e.Tag = none) (hpos : 0 < base.length) :
    mergeOutbounds base [e] fn
      = if containsTailMarker fn then base ++ [e] else e :: base := by
  simp only [mergeOutbounds]
  simp [findTagIdx, hj, hpos]

/-! ### Claim theorems -/

/-- C9: the stream-settings transport overlay is idempotent, and every of
the five per-transport fields that was already set before the overlay is
unchanged by it. -/
theorem c9_overlay_idempotent (s : StreamConfig) (t : TransportConfig) :
    applyTransportConfig (applyTransportConfig s t) t = applyTransportConfig s t
    ∧ (s.TCPSettings.isSome → (applyTransportConfig s t).TCPSettings = s.TCPSettings)
    ∧ (s.KCPSettings.isSome → (applyTransportConfig s t).KCPSettings = s.KCPSettings)
    ∧ (s.WSSettings.isSome → (applyTransportConfig s t).WSSettings = s.WSSettings)
    ∧ (s.HTTPSettings.isSome → (applyTransportConfig s t).HTTPSettings = s.HTTPSettings)
    ∧ (s.DSSettings.isSome → (applyTransportConfig s t).DSSettings = s.DSSettings) := by
  refine ⟨?_, ?_, ?_, ?_, ?_, ?_⟩
  · simp [applyTransportConfig, fillIfUnset_idem]
  · intro h
    simp only [applyTransportConfig]
    exact fillIfUnset_some _ _ h
  · intro h
    simp only [applyTransportConfig]
    exact fillIfUnset_some _ _ h
  · intro h
    simp only [applyTransportConfig]
    exact fillIfUnset_some _ _ h
  · intro h
    simp only [applyTransportConfig]
    exact fillIfUnset_some _ _ h
  · intro h
    simp only [applyTransportConfig]
    exact fillIfUnset_some _ _ h

/-- C9 witness: a concrete overlay where the already-set TCP block
survives and a second overlay changes nothing. -/
theorem c9_witness :
    applyTransportConfig
        (applyTransportConfig { TCPSettings := some { v := 1 } } { KCPConfig := some { v := 2 } })
        { KCPConfig := some { v := 2 } }
      = applyTransportConfig { TCPSettings := some { v := 1 } } { KCPConfig := some { v := 2 } }
    ∧ (applyTransportConfig { TCPSettings := some { v := 1 } }
        { KCPConfig := some { v := 2 } }).TCPSettings = some { v := 1 } := by
  have h := c9_overlay_idempotent { TCPSettings := some { v := 1 } } { KCPConfig := some { v := 2 } }
  exact ⟨h.1, h.2.1 (by decide)⟩

/-- C3: an outbound spec with both a non-empty proxy-chain tag and a
non-empty socket dialer-proxy tag fails with the conflict error. -/
theorem c3_chain_proxy_conflict (c : OutboundDetourConfig) (ss : StreamConfig)
    (sock : SocketConfig) (ps : ProxyConfig)
    (hss : c.StreamSetting = some ss) (hps : c.ProxySettings = some ps)
    (hsock : ss.SocketSettings = some sock)
    (htag : ps.Tag ≠ "") (hdp : sock.DialerProxy ≠ "") :
    OutboundDetourConfig.Build c = Except.error Err.conflictChainProxy := by
  have h1 : c.checkChainProxyConfig = some Err.conflictChainProxy := by
    simp only [OutboundDetourConfig.checkChainProxyConfig, hss, hps, hsock]
    exact if_pos ⟨string_length_pos _ htag, string_length_pos _ hdp⟩
  simp [OutboundDetourConfig.Build, h1]

/-- C3 witness: a concrete conflicted outbound spec. -/
theorem c3_witness :
    OutboundDetourConfig.Build
        { Protocol := "freedom"
          StreamSetting := some { SocketSettings := some { DialerProxy := "dp" } }
          ProxySettings := some { Tag := "chain" } }
      = Except.error Err.conflictChainProxy :=
  c3_chain_proxy_conflict _ _ _ _ rfl rfl rfl (by decide) (by decide)

/-- C10: an inbound spec listening on a domain-socket path with an
allocation config but no port specification makes the capacity loop of
`InboundDetourConfig.Build` dereference the absent port list: the build
crashes (returns no value at all) instead of returning an error. -/
theorem c10_alloc_missing_portlist_crash (c : InboundDetourConfig)
    (a : InboundDetourAllocationConfig) (d : String)
    (hA : c.Allocation = some a) (hL : c.ListenOn = some (Address.domain d))
    (hds : dsPath d = true) (hP : c.PortList = none) :
    InboundDetourConfig.Build c = none ∧ inboundAllocStage c = none := by
  have hlisten := listen_ds c d hL hds
  have halloc : inboundAllocStage c = none := by
    simp [inboundAllocStage, hA, hP]
  exact ⟨by simp [InboundDetourConfig.Build, hlisten, halloc], halloc⟩

/-- C10 witness: a concrete domain-socket inbound with an allocation
config and no port specification crashes. -/
theorem c10_witness :
    InboundDetourConfig.Build
        { Protocol := "socks", ListenOn := some (Address.domain "/run/x.sock")
          Allocation := some { Strategy := "always" } }
      = none ∧ inboundAllocStage
        { Protocol := "socks", ListenOn := some (Address.domain "/run/x.sock")
          Allocation := some { Strategy := "always" } } = none :=
  c10_alloc_missing_portlist_crash _ _ _ rfl rfl (by decide) rfl

/-- C2 counterexample: a listen address that is the empty domain (the
parse of `listen: ""`) is a non-localhost domain, so the claim requires
the unsupported-address error; the code instead panics on
`c.ListenOn.Domain()[0]` and `Build` produces no error value at all. -/
theorem c2_counterexample :
    inboundBuildListen
        { Protocol := "socks", ListenOn := some (Address.domain "")
          PortList := some { Range := [{ From := 80, To := 80 }] } } = none
    ∧ inboundBuildListen
        { Protocol := "socks", ListenOn := some (Address.domain "")
          PortList := some { Range := [{ From := 80, To := 80 }] } }
      ≠ some (Except.error (Err.unsupportedDomain ""))
    ∧ InboundDetourConfig.Build
        { Protocol := "socks", ListenOn := some (Address.domain "")
          PortList := some { Range := [{ From := 80, To := 80 }] } } = none := by
  refine ⟨by decide, by decide, by decide⟩

/-- C2 amended: the listen-address/port stage of `InboundDetourConfig.Build`
succeeds exactly on the claimed combinations; a domain-socket path discards
the port specification; no listen address and no port specification fails;
a non-empty, non-localhost, non-socket-path domain fails with the
unsupported-address error (the empty domain instead crashes); and a
listen-stage error is the error returned by `Build`. -/
theorem c2_amended_listen_classification (c : InboundDetourConfig) :
    isOkSome (inboundBuildListen c) = claimListenCombo c
    ∧ (∀ d, c.ListenOn = some (Address.domain d) → dsPath d = true →
        inboundBuildListen c = some (Except.ok none))
    ∧ (c.ListenOn = none → c.PortList = none →
        inboundBuildListen c = some (Except.error Err.anyIPNoPort))
    ∧ (∀ d, c.ListenOn = some (Address.domain d) → d ≠ "" → d ≠ "localhost" →
        dsPath d = false →
        inboundBuildListen c = some (Except.error (Err.unsupportedDomain d)))
    ∧ (∀ e, inboundBuildListen c = some (Except.error e) →
        InboundDetourConfig.Build c = some (Except.error e)) := by
  refine ⟨?_, ?_, ?_, ?_, ?_⟩
  · cases hL : c.ListenOn with
    | none => cases hP : c.PortList <;> simp [inboundBuildListen, claimListenCombo, hL, hP, isOkSome]
    | some a =>
      cases a with
      | ip v => cases hP : c.PortList <;> simp [inboundBuildListen, claimListenCombo, hL, hP, isOkSome]
      | domain d =>
        cases hd : d.data with
        | nil =>
          have hde : d = "" := (data_eq_nil_iff d).mp hd
          subst hde
          cases hP : c.PortList <;>
            simp [inboundBuildListen, claimListenCombo, hL, hP, isOkSome, dsPath]
        | cons c0 rest =>
          by_cases hloc : d = "localhost"
          · subst hloc
            cases hP : c.PortList <;>
              simp [inboundBuildListen, claimListenCombo, hL, hP, isOkSome, hd,
                show dsPath "localhost" = false from by decide]
          · by_cases hds : (c0 == '/' || c0 == '@') = true
            · cases hP : c.PortList <;>
                simp [inboundBuildListen, claimListenCombo, hL, hP, isOkSome, hd, hloc, hds, dsPath]
            · cases hP : c.PortList <;>
                simp [inboundBuildListen, claimListenCombo, hL, hP, isOkSome, hd, hloc, hds, dsPath]
  · intro d hL hds
    exact listen_ds c d hL hds
  · intro h1 h2
    simp [inboundBuildListen, h1, h2]
  · intro d hL hne hloc hds
    cases hd : d.data with
    | nil => exact absurd ((data_eq_nil_iff d).mp hd) hne
    | cons c0 rest =>
      simp only [dsPath, hd] at hds
      simp [inboundBuildListen, hL, hd, hloc, hds]
  · intro e h
    simp [InboundDetourConfig.Build, h]

/-- C2 witness: a concrete abstract-socket listener discards its port
specification, and a concrete non-localhost domain fails with the
unsupported-address error. -/
theorem c2_witness :
    inboundBuildListen
        { Protocol := "socks", ListenOn := some (Address.domain "@abstract")
          PortList := some { Range := [{ From := 1, To := 2 }] } }
      = some (Except.ok none)
    ∧ inboundBuildListen
        { Protocol := "socks", ListenOn := some (Address.domain "example.com") }
      = some (Except.error (Err.unsupportedDomain "example.com")) := by
  constructor
  · exact (c2_amended_listen_classification _).2.1 "@abstract" rfl (by decide)
  · exact (c2_amended_listen_classification _).2.2.2.1 "example.com" rfl (by decide) (by decide)
      (by decide)

/-- C8: whenever `Config.Build` succeeds, the App list is ordered as
fake-DNS (if configured), then the log module, then dispatcher,
inbound-manager, outbound-manager, then API, metrics, stats, then router,
DNS, policy, reverse-tunnel, then observatory and TUN, each present iff
configured.  In particular log precedes everything but fake-DNS, and
fake-DNS precedes log. -/
theorem c8_app_module_order (c : Config) (cfg : CoreConfig)
    (h : Config.Build c = some (Except.ok cfg)) :
    cfg.App =
      (if c.FakeDNS.isSome then [AppModule.fakeDns] else []) ++ [AppModule.log]
        ++ [AppModule.dispatcher, AppModule.inboundManager, AppModule.outboundManager]
        ++ (if c.API.isSome then [AppModule.api] else [])
        ++ (if c.Metrics.isSome then [AppModule.metrics] else [])
        ++ (if c.Stats.isSome then [AppModule.stats] else [])
        ++ (if c.RouterConfig.isSome then [AppModule.router] else [])
        ++ (if c.DNSConfig.isSome then [AppModule.dns] else [])
        ++ (if c.Policy.isSome then [AppModule.policy] else [])
        ++ (if c.Reverse.isSome then [AppModule.reverse] else [])
        ++ (if c.Observatory.isSome then [AppModule.observatory] else [])
        ++ (if c.Tun.isSome then [AppModule.tun] else []) := by
  have happ : cfg.App = c.appList := by
    rw [Config.Build.eq_def] at h
    simp only [PostProcessConfigureFile] at h
    cases h1 : buildInboundList c.Transport c.reconciledInbounds with
    | none => simp [h1] at h
    | some r1 =>
      cases r1 with
      | error e => simp [h1] at h
      | ok ibs =>
        cases h2 : buildOutboundList c.Transport c.reconciledOutbounds with
        | error e => simp [h1, h2] at h
        | ok obs =>
          simp only [h1, h2, Option.some.injEq, Except.ok.injEq] at h
          rw [← h]
  rw [happ]
  simp only [Config.appList, appendIf_eq, prependIf_eq]
  simp [List.append_assoc]

/-- C8 witness: a concrete config with fake-DNS, an explicit log config
and the API module builds, and its module list starts with fake-DNS, then
log, then the three fixed modules, then the API module. -/
theorem c8_witness :
    Config.Build { FakeDNS := some { v := 7 }, LogConfig := some { v := 1 }, API := some { v := 2 } }
      = some (Except.ok
          { App := [AppModule.fakeDns, AppModule.log, AppModule.dispatcher,
              AppModule.inboundManager, AppModule.outboundManager, AppModule.api]
            Inbound := [], Outbound := [] })
    ∧ ({ App := [AppModule.fakeDns, AppModule.log, AppModule.dispatcher,
            AppModule.inboundManager, AppModule.outboundManager, AppModule.api]
         Inbound := [], Outbound := [] } : CoreConfig).App
      = [AppModule.fakeDns, AppModule.log, AppModule.dispatcher,
          AppModule.inboundManager, AppModule.outboundManager, AppModule.api] := by
  constructor
  · decide
  · have h := c8_app_module_order
      { FakeDNS := some { v := 7 }, LogConfig := some { v := 1 }, API := some { v := 2 } }
      { App := [AppModule.fakeDns, AppModule.log, AppModule.dispatcher,
          AppModule.inboundManager, AppModule.outboundManager, AppModule.api]
        Inbound := [], Outbound := [] } (by decide)
    exact h.trans (by decide)

/-- C1 counterexample: the strategy string "Random" matches "random"
case-insensitively (the Allocation Strategy Builder accepts it), the
concurrency 5 exceeds the capacity 1 of the single port range, yet `Build`
succeeds instead of failing with the insufficient-ports error, because the
concurrency check at `xray.go` line 213 compares the strategy string
case-sensitively. -/
theorem c1_counterexample :
    InboundDetourConfig.Build
        { Protocol := "socks", PortList := some { Range := [{ From := 1, To := 1 }] }
          Allocation := some { Strategy := "Random", Concurrency := some 5 } }
      ≠ some (Except.error Err.insufficientPorts)
    ∧ isOkSome (InboundDetourConfig.Build
        { Protocol := "socks", PortList := some { Range := [{ From := 1, To := 1 }] }
          Allocation := some { Strategy := "Random", Concurrency := some 5 } }) = true := by
  refine ⟨by decide, by decide⟩

/-- C1 amended: for an inbound spec whose allocation strategy string is
exactly "random" (the concurrency check of `InboundDetourConfig.Build` is
case-sensitive, unlike the Allocation Strategy Builder), with concurrency
C set and a well-formed port specification of total capacity
N = sum of (to - from + 1), and whose listen/port stage succeeds, `Build`
fails with the insufficient-ports error iff C >= N. -/
theorem c1_amended_insufficient_ports_iff
    (c : InboundDetourConfig) (a : InboundDetourAllocationConfig) (cc : Nat) (pl : PortList)
    (hA : c.Allocation = some a) (hs : a.Strategy = "random") (hcc : a.Concurrency = some cc)
    (hP : c.PortList = some pl)
    (hwf : ∀ pr ∈ pl.Range, pr.From ≤ pr.To ∧ pr.To < 65536)
    (hlisten : ∃ v, inboundBuildListen c = some (Except.ok v)) :
    InboundDetourConfig.Build c = some (Except.error Err.insufficientPorts)
      ↔ portCapacitySpec pl ≤ (cc : Int) := by
  obtain ⟨v, hv⟩ := hlisten
  have hconc : allocConcurrency a = (cc : Int) := by
    simp [allocConcurrency, hcc, hs]
  have hcap := portRangeCapacity_eq_spec pl hwf
  by_cases hle : portCapacitySpec pl ≤ (cc : Int)
  · have halloc : inboundAllocStage c = some (Except.error Err.insufficientPorts) := by
      simp only [inboundAllocStage, hA, hP, hconc, hcap]
      exact if_pos ⟨Int.natCast_nonneg cc, hle⟩
    simp [InboundDetourConfig.Build, hv, halloc, hle]
  · have hab : a.Build = Except.ok
        { Typ := AllocationType.Random, Concurrency := a.Concurrency, Refresh := a.RefreshMin } := by
      simp only [InboundDetourAllocationConfig.Build, hs]
      rfl
    have halloc : inboundAllocStage c = some (Except.ok (some
        { Typ := AllocationType.Random, Concurrency := a.Concurrency, Refresh := a.RefreshMin })) := by
      simp only [inboundAllocStage, hA, hP, hconc, hcap]
      rw [if_neg (fun hcond => hle hcond.2), hab]
    constructor
    · intro hbuild
      rw [InboundDetourConfig.Build.eq_def, hv, halloc] at hbuild
      cases hrest : inboundRestStage c with
      | error e =>
        rw [hrest] at hbuild
        simp at hbuild
        obtain ⟨m, b, hw⟩ := inboundRestStage_error_shape c e hrest
        rw [hw] at hbuild
        exact Err.noConfusion hbuild
      | ok r =>
        rw [hrest] at hbuild
        simp at hbuild
    · intro h
      exact absurd h hle

/-- C1 witness: strategy exactly "random" with concurrency 3 against a
single-port range of capacity 1 fails with the insufficient-ports
error. -/
theorem c1_witness :
    InboundDetourConfig.Build
        { Protocol := "socks", PortList := some { Range := [{ From := 1, To := 1 }] }
          Allocation := some { Strategy := "random", Concurrency := some 3 } }
      = some (Except.error Err.insufficientPorts) :=
  (c1_amended_insufficient_ports_iff _ _ 3 _ rfl rfl rfl rfl (by decide)
    ⟨some { Range := [{ From := 1, To := 1 }] }, by decide⟩).mpr (by decide)

/-- C4: when proxy-chain settings are present and their built form declares
a transport-layer proxy, a successful `OutboundDetourConfig.Build` produces
sender settings whose stream/socket records carry the chain's tag as the
dialer-proxy tag (records created if absent) and no explicit proxy-settings
block. -/
theorem c4_transport_layer_chain (c : OutboundDetourConfig) (oc : OutboundHandlerConfig)
    (pc : ProxyConfig)
    (hps : c.ProxySettings = some pc) (htlp : pc.TransportLayerProxy = true)
    (h : OutboundDetourConfig.Build c = Except.ok oc) :
    (oc.SenderSettings.StreamSettings.bind (fun s => s.SocketSettings)).map
        (fun k => k.DialerProxy) = some pc.Tag
    ∧ oc.SenderSettings.ProxySettings = none := by
  rw [OutboundDetourConfig.Build.eq_def] at h
  cases hchk : c.checkChainProxyConfig with
  | some e => simp [hchk] at h
  | none =>
    have hchain : chainStage (c.StreamSetting.map StreamConfig.Build) c.ProxySettings
        = Except.ok (some (rewriteDialer (c.StreamSetting.map StreamConfig.Build) pc.Tag), none) := by
      rw [hps]
      simp [chainStage, ProxyConfig.Build, htlp]
    cases hst : sendThroughStage c.SendThrough with
    | error e => simp [hchk, hst] at h
    | ok via1 =>
      cases hm : muxStage c.MuxSettings with
      | error e => simp [hchk, hst, hchain, hm] at h
      | ok mux =>
        cases hload : outboundLoadWithID (c.Settings.getD {}) c.Protocol with
        | error e => simp [hchk, hst, hchain, hm, hload] at h
        | ok rawConfig =>
          simp only [hchk, hst, hchain, hm, hload, Except.ok.injEq] at h
          rw [← h]
          exact ⟨by simpa using rewriteDialer_socket (c.StreamSetting.map StreamConfig.Build) pc.Tag, rfl⟩

/-- C5: an override list of exactly one entry whose tag matches some base
entry makes `Config.Override` replace the first matching base entry in
place at its original index, leaving the length and every other entry (and
their order) unchanged — for the inbound and the outbound list alike. -/
theorem c5_override_replace :
    (∀ (c o : Config) (fn : String) (e : InboundDetourConfig),
      o.InboundConfigs = [e] →
      (∃ b ∈ c.InboundConfigs, b.Tag = e.Tag) →
      ∃ j : Nat,
        Config.findInboundTag c e.Tag = (j : Int)
        ∧ (∃ b, c.InboundConfigs.get? j = some b ∧ b.Tag = e.Tag)
        ∧ (∀ i, i < j → ∀ b, c.InboundConfigs.get? i = some b → b.Tag ≠ e.Tag)
        ∧ (Config.Override c o fn).InboundConfigs = c.InboundConfigs.set j e
        ∧ (Config.Override c o fn).InboundConfigs.length = c.InboundConfigs.length
        ∧ (Config.Override c o fn).InboundConfigs.get? j = some e
        ∧ (∀ i, i ≠ j →
            (Config.Override c o fn).InboundConfigs.get? i = c.InboundConfigs.get? i))
    ∧ (∀ (c o : Config) (fn : String) (e : OutboundDetourConfig),
      o.OutboundConfigs = [e] →
      (∃ b ∈ c.OutboundConfigs, b.Tag = e.Tag) →
      ∃ j : Nat,
        Config.findOutboundTag c e.Tag = (j : Int)
        ∧ (∃ b, c.OutboundConfigs.get? j = some b ∧ b.Tag = e.Tag)
        ∧ (∀ i, i < j → ∀ b, c.OutboundConfigs.get? i = some b → b.Tag ≠ e.Tag)
        ∧ (Config.Override c o fn).OutboundConfigs = c.OutboundConfigs.set j e
        ∧ (Config.Override c o fn).OutboundConfigs.length = c.OutboundConfigs.length
        ∧ (Config.Override c o fn).OutboundConfigs.get? j = some e
        ∧ (∀ i, i ≠ j →
            (Config.Override c o fn).OutboundConfigs.get? i = c.OutboundConfigs.get? i)) := by
  constructor
  · intro c o fn e ho hex
    obtain ⟨j, hj⟩ := findTagAuxN_isSome_of_mem (fun ib => ib.Tag) c.InboundConfigs e.Tag hex
    obtain ⟨hlen, hbex, hfirst⟩ := findTagAuxN_some _ _ _ _ hj
    have hres : (Config.Override c o fn).InboundConfigs = c.InboundConfigs.set j e := by
      rw [override_inbounds_eq, ho]
      exact mergeInbounds_replace _ _ _ hj (by omega)
    refine ⟨j, by simp [Config.findInboundTag, findTagIdx, hj], hbex, hfirst, hres, ?_, ?_, ?_⟩
    · rw [hres, List.length_set]
    · rw [hres]
      exact get?_set_self _ _ _ hlen
    · intro i hij
      rw [hres]
      exact get?_set_ne _ _ _ _ hij
  · intro c o fn e ho hex
    obtain ⟨j, hj⟩ := findTagAuxN_isSome_of_mem (fun ob => ob.Tag) c.OutboundConfigs e.Tag hex
    obtain ⟨hlen, hbex, hfirst⟩ := findTagAuxN_some _ _ _ _ hj
    have hres : (Config.Override c o fn).OutboundConfigs = c.OutboundConfigs.set j e := by
      rw [override_outbounds_eq, ho]
      exact mergeOutbounds_replace _ _ _ _ hj (by omega)
    refine ⟨j, by simp [Config.findOutboundTag, findTagIdx, hj], hbex, hfirst, hres, ?_, ?_, ?_⟩
    · rw [hres, List.length_set]
    · rw [hres]
      exact get?_set_self _ _ _ hlen
    · intro i hij
      rw [hres]
      exact get?_set_ne _ _ _ _ hij

/-- C5 witness: concrete in-place replacements at index 1 (inbound) and
index 0 (outbound). -/
theorem c5_witness :
    (Config.Override { InboundConfigs := [{ Tag := "a" }, { Tag := "t" }] }
        { InboundConfigs := [{ Tag := "t", Protocol := "vmess" }] } "w").InboundConfigs
      = [{ Tag := "a" }, { Tag := "t", Protocol := "vmess" }]
    ∧ (Config.Override { OutboundConfigs := [{ Tag := "x" }] }
        { OutboundConfigs := [{ Tag := "x", Protocol := "freedom" }] } "w").OutboundConfigs
      = [{ Tag := "x", Protocol := "freedom" }] := by
  constructor
  · obtain ⟨j, hfind, _, _, hset, _, _, _⟩ := c5_override_replace.1
      { InboundConfigs := [{ Tag := "a" }, { Tag := "t" }] }
      { InboundConfigs := [{ Tag := "t", Protocol := "vmess" }] } "w"
      { Tag := "t", Protocol := "vmess" } rfl ⟨{ Tag := "t" }, by decide, by decide⟩
    have hj : (j : Int) = 1 := by
      rw [← hfind]
      decide
    have hj' : j = 1 := by exact_mod_cast hj
    subst hj'
    exact hset.trans (by decide)
  · obtain ⟨j, hfind, _, _, hset, _, _, _⟩ := c5_override_replace.2
      { OutboundConfigs := [{ Tag := "x" }] }
      { OutboundConfigs := [{ Tag := "x", Protocol := "freedom" }] } "w"
      { Tag := "x", Protocol := "freedom" } rfl ⟨{ Tag := "x" }, by decide, by decide⟩
    have hj : (j : Int) = 0 := by
      rw [← hfind]
      decide
    have hj' : j = 0 := by exact_mod_cast hj
    subst hj'
    exact hset.trans (by decide)

/-- C6: an override list of exactly one entry whose tag matches no base
entry is appended for inbounds; for outbounds it is appended when the
caller-identity string contains "tail" case-insensitively and prepended
otherwise; pre-existing base entries keep their relative order. -/
theorem c6_override_append_prepend :
    (∀ (c o : Config) (fn : String) (e : InboundDetourConfig),
      o.InboundConfigs = [e] → c.InboundConfigs ≠ [] →
      (∀ b ∈ c.InboundConfigs, b.Tag ≠ e.Tag) →
      (Config.Override c o fn).InboundConfigs = c.InboundConfigs ++ [e])
    ∧ (∀ (c o : Config) (fn : String) (e : OutboundDetourConfig),
      o.OutboundConfigs = [e] → c.OutboundConfigs ≠ [] →
      (∀ b ∈ c.OutboundConfigs, b.Tag ≠ e.Tag) →
      (Config.Override c o fn).OutboundConfigs =
        if containsTailMarker fn then c.OutboundConfigs ++ [e]
        else e :: c.OutboundConfigs) := by
  constructor
  · intro c o fn e ho hne hall
    have hj : findTagAuxN (fun ib => ib.Tag) c.InboundConfigs e.Tag = none :=
      (findTagAuxN_none_iff _ _ _).mpr hall
    rw [override_inbounds_eq, ho]
    exact mergeInbounds_append _ _ hj (List.length_pos.mpr hne)
  · intro c o fn e ho hne hall
    have hj : findTagAuxN (fun ob => ob.Tag) c.OutboundConfigs e.Tag = none :=
      (findTagAuxN_none_iff _ _ _).mpr hall
    rw [override_outbounds_eq, ho]
    exact mergeOutbounds_nomatch _ _ _ hj (List.length_pos.mpr hne)

/-- C6 witness: concrete unmatched-tag merges — inbound appends, outbound
appends for a caller identity containing "TAIL" and prepends for one
without the marker. -/
theorem c6_witness :
    (Config.Override { InboundConfigs := [{ Tag := "a" }] }
        { InboundConfigs := [{ Tag := "b", Protocol := "socks" }] } "w").InboundConfigs
      = [{ Tag := "a" }, { Tag := "b", Protocol := "socks" }]
    ∧ (Config.Override { OutboundConfigs := [{ Tag := "a" }] }
        { OutboundConfigs := [{ Tag := "b" }] } "x_TAIL_y").OutboundConfigs
      = [{ Tag := "a" }, { Tag := "b" }]
    ∧ (Config.Override { OutboundConfigs := [{ Tag := "a" }] }
        { OutboundConfigs := [{ Tag := "b" }] } "web").OutboundConfigs
      = [{ Tag := "b" }, { Tag := "a" }] := by
  refine ⟨?_, ?_, ?_⟩
  · have h := c6_override_append_prepend.1 { InboundConfigs := [{ Tag := "a" }] }
      { InboundConfigs := [{ Tag := "b", Protocol := "socks" }] } "w"
      { Tag := "b", Protocol := "socks" } rfl (by decide) (by decide)
    exact h.trans (by decide)
  · have h := c6_override_append_prepend.2 { OutboundConfigs := [{ Tag := "a" }] }
      { OutboundConfigs := [{ Tag := "b" }] } "x_TAIL_y" { Tag := "b" } rfl (by decide) (by decide)
    exact h.trans (by decide)
  · have h := c6_override_append_prepend.2 { OutboundConfigs := [{ Tag := "a" }] }
      { OutboundConfigs := [{ Tag := "b" }] } "web" { Tag := "b" } rfl (by decide) (by decide)
    exact h.trans (by decide)

/-- C7 counterexample: the claim says an empty-tagged override entry is
never matched by tag and is appended; but with a base list whose only
entry also has the empty tag, `Config.Override` replaces that entry
in place (the result has one entry, not two). -/
theorem c7_counterexample :
    (Config.Override { InboundConfigs := [{ Protocol := "vmess" }] }
        { InboundConfigs := [{ Protocol := "vless" }] } "file").InboundConfigs
      = [{ Protocol := "vless" }]
    ∧ (Config.Override { InboundConfigs := [{ Protocol := "vmess" }] }
        { InboundConfigs := [{ Protocol := "vless" }] } "file").InboundConfigs
      ≠ [{ Protocol := "vmess" }, { Protocol := "vless" }] := by
  exact ⟨by decide, by decide⟩

/-- C7 amended: an empty-tagged override entry participates in tag lookup
like any other tag: if no base entry has the empty tag it is appended, and
otherwise it replaces the first base entry whose tag is empty. -/
theorem c7_amended_empty_tag (c o : Config) (fn : String) (e : InboundDetourConfig)
    (ho : o.InboundConfigs = [e]) (ht : e.Tag = "") (hne : c.InboundConfigs ≠ []) :
    (Config.findInboundTag c "" = -1 →
      (Config.Override c o fn).InboundConfigs = c.InboundConfigs ++ [e])
    ∧ (∀ j : Nat, Config.findInboundTag c "" = (j : Int) →
      (Config.Override c o fn).InboundConfigs = c.InboundConfigs.set j e) := by
  have hpos : 0 < c.InboundConfigs.length := List.length_pos.mpr hne
  constructor
  · intro hfind
    have hj : findTagAuxN (fun ib => ib.Tag) c.InboundConfigs "" = none := by
      revert hfind
      simp only [Config.findInboundTag, findTagIdx]
      cases hx : findTagAuxN (fun ib => ib.Tag) c.InboundConfigs "" with
      | none => intro _; rfl
      | some j =>
        intro hfind
        have hfind' : ((j : Nat) : Int) = -1 := hfind
        exfalso
        omega
    rw [← ht] at hj
    rw [override_inbounds_eq, ho]
    exact mergeInbounds_append _ _ hj hpos
  · intro j hfind
    have hj : findTagAuxN (fun ib => ib.Tag) c.InboundConfigs "" = some j := by
      revert hfind
      simp only [Config.findInboundTag, findTagIdx]
      cases hx : findTagAuxN (fun ib => ib.Tag) c.InboundConfigs "" with
      | none =>
        intro hfind
        have hfind' : (-1 : Int) = (j : Int) := hfind
        exfalso
        omega
      | some j' =>
        intro hfind
        have hfind' : ((j' : Nat) : Int) = (j : Int) := hfind
        have hjj : j' = j := by exact_mod_cast hfind'
        rw [hjj]
    rw [← ht] at hj
    rw [override_inbounds_eq, ho]
    exact mergeInbounds_replace _ _ _ hj hpos

/-- C7 witness: with no empty-tagged base entry the empty-tagged override
entry is appended; with one, it replaces it at index 0. -/
theorem c7_witness :
    (Config.Override { InboundConfigs := [{ Tag := "x" }] }
        { InboundConfigs := [{ Protocol := "socks" }] } "f").InboundConfigs
      = [{ Tag := "x" }, { Protocol := "socks" }]
    ∧ (Config.Override { InboundConfigs := [{ Protocol := "vmess" }] }
        { InboundConfigs := [{ Protocol := "socks" }] } "f").InboundConfigs
      = [{ Protocol := "socks" }] := by
  constructor
  · have h := (c7_amended_empty_tag { InboundConfigs := [{ Tag := "x" }] }
      { InboundConfigs := [{ Protocol := "socks" }] } "f" { Protocol := "socks" }
      rfl rfl (by decide)).1 (by decide)
    exact h.trans (by decide)
  · have h := (c7_amended_empty_tag { InboundConfigs := [{ Protocol := "vmess" }] }
      { InboundConfigs := [{ Protocol := "socks" }] } "f" { Protocol := "socks" }
      rfl rfl (by decide)).2 0 (by decide)
    exact h.trans (by decide)

/-- C4 witness: a concrete outbound with a transport-layer chain proxy,
no stream settings, builds sender settings with the socket record created
and the dialer-proxy tag set to the chain tag, and a nil proxy-settings
block. -/
theorem c4_witness :
    ((OutboundHandlerConfig.mk
          { Via := none
            StreamSettings := some { SocketSettings := some { DialerProxy := "chain" } }
            ProxySettings := none
            MultiplexSettings := none } "" OutboundVariant.freedom).SenderSettings.StreamSettings.bind
        (fun s => s.SocketSettings)).map (fun k => k.DialerProxy) = some "chain"
    ∧ (OutboundHandlerConfig.mk
          { Via := none
            StreamSettings := some { SocketSettings := some { DialerProxy := "chain" } }
            ProxySettings := none
            MultiplexSettings := none } "" OutboundVariant.freedom).SenderSettings.ProxySettings = none :=
  c4_transport_layer_chain
    { Protocol := "freedom", ProxySettings := some { Tag := "chain", TransportLayerProxy := true } }
    _ { Tag := "chain", TransportLayerProxy := true } rfl rfl (by decide)

end Xray
